import Mathlib

/-!
Verification of the claude-office ingestion layer: a shallow embedding of
`backend/app/services/opencode_adapter.py` (vendor-event transformation and
stream-line processing), `backend/app/core/task_persistence.py` together with
the `TaskRecord` ORM model of `backend/app/db/models.py` (task save/load), and
the per-session task-file poller.  Python dictionaries of parsed JSON are
modelled by the `Json` type below; a Python exception raised by the embedded
code is an `Except.error` of type `PyErr`.
-/

/-- Parsed JSON values as Python produces them: `None`, booleans, numbers
(restricted to integers), strings, lists and string-keyed dicts. -/
inductive Json where
  | null : Json
  | bool (b : Bool) : Json
  | num (n : Int) : Json
  | str (s : String) : Json
  | arr (xs : List Json) : Json
  | obj (fields : List (String × Json)) : Json

/-- The Python exception classes the embedded code can raise. -/
inductive PyErr where
  | attributeError : PyErr
  | typeError : PyErr
  | valueError : PyErr
  | httpError : PyErr
deriving DecidableEq

/-- Python truthiness of a parsed-JSON value (`bool(x)`). -/
def Json.truthy : Json → Bool
  | .null => false
  | .bool b => b
  | .num n => n != 0
  | .str s => s != ""
  | .arr xs => !xs.isEmpty
  | .obj kvs => !kvs.isEmpty

/-- Whether a value may be used as a Python dict key (lists and dicts are
unhashable). -/
def Json.hashable : Json → Bool
  | .arr _ => false
  | .obj _ => false
  | _ => true

/-- Python `==` between two hashable atoms, as used for dict-key lookup
(including the `True == 1` / `False == 0` identification). -/
def pyKeyEq : Json → Json → Bool
  | .null, .null => true
  | .bool a, .bool b => a == b
  | .num a, .num b => a == b
  | .bool a, .num b => (if a then (1 : Int) else 0) == b
  | .num a, .bool b => a == (if b then (1 : Int) else 0)
  | .str a, .str b => a == b
  | _, _ => false

/-- `d.get(k)` on a dict already known to be a dict: the stored value, or
`None` when the key is absent. -/
def pyGet (kvs : List (String × Json)) (k : String) : Json :=
  ((kvs.find? (fun kv => kv.1 == k)).map (fun kv => kv.2)).getD .null

/-- `d.get(k, default)` on a dict already known to be a dict. -/
def pyGetD (kvs : List (String × Json)) (k : String) (d : Json) : Json :=
  ((kvs.find? (fun kv => kv.1 == k)).map (fun kv => kv.2)).getD d

/-- `x.get(k)` on an arbitrary value: raises `AttributeError` unless `x` is a
dict. -/
def Json.objGet : Json → String → Except PyErr Json
  | .obj kvs, k => .ok (pyGet kvs k)
  | _, _ => .error .attributeError

/-- `x.get(k, default)` on an arbitrary value: raises `AttributeError` unless
`x` is a dict. -/
def Json.objGetD : Json → String → Json → Except PyErr Json
  | .obj kvs, k, d => .ok (pyGetD kvs k d)
  | _, _, _ => .error .attributeError

/-- Python `x or y` on two values. -/
def pyOr (a b : Json) : Json := if a.truthy then a else b

/-- `j == "s"` for a string literal `s` (Python equality: only a string value
can equal a string). -/
def pyEqStr (j : Json) (s : String) : Bool :=
  match j with
  | .str t => t == s
  | _ => false

/-- `cache.get(key)` on a dict keyed by arbitrary hashable values: raises
`TypeError` for an unhashable key, otherwise yields the stored value or
`None`. -/
def dictGet (d : List (Json × Json)) (k : Json) : Except PyErr Json :=
  if k.hashable then
    .ok (((d.find? (fun kv => pyKeyEq kv.1 k)).map (fun kv => kv.2)).getD .null)
  else
    .error .typeError

/-- `cache[key] = value`: raises `TypeError` for an unhashable key, otherwise
replaces the existing entry or appends a new one (Python insertion order). -/
def dictSet (d : List (Json × Json)) (k v : Json) : Except PyErr (List (Json × Json)) :=
  if k.hashable then
    .ok (if d.any (fun kv => pyKeyEq kv.1 k) then
           d.map (fun kv => if pyKeyEq kv.1 k then (kv.1, v) else kv)
         else d ++ [(k, v)])
  else
    .error .typeError

/-- Total variant of `dictSet` used in theorem statements (equal to `dictSet`
whenever the key is hashable). -/
def dictSetT (d : List (Json × Json)) (k v : Json) : List (Json × Json) :=
  if d.any (fun kv => pyKeyEq kv.1 k) then
    d.map (fun kv => if pyKeyEq kv.1 k then (kv.1, v) else kv)
  else d ++ [(k, v)]

/-- Total variant of `dictGet` used in theorem statements. -/
def dictFind (d : List (Json × Json)) (k : Json) : Json :=
  ((d.find? (fun kv => pyKeyEq kv.1 k)).map (fun kv => kv.2)).getD .null

/-- Total `x.get(k)` used in theorem statements (meaningful when `x` is known
to be a dict). -/
def jsonGet (j : Json) (k : String) : Json :=
  match j with
  | .obj kvs => pyGet kvs k
  | _ => .null

/-- Total `x.get(k, d)` used in theorem statements. -/
def jsonGetD (j : Json) (k : String) (d : Json) : Json :=
  match j with
  | .obj kvs => pyGetD kvs k d
  | _ => d

/-- Whether a value is a dict. -/
def Json.isObj : Json → Bool
  | .obj _ => true
  | _ => false

/-- Whether a dict value has an entry for key `k`. -/
def jsonHasKey (j : Json) (k : String) : Bool :=
  match j with
  | .obj kvs => kvs.any (fun kv => kv.1 == k)
  | _ => false

/-- Python `repr()` of a parsed-JSON value (the form `str()` uses for
container elements). -/
def pyRepr : Json → String
  | .null => "None"
  | .bool b => if b then "True" else "False"
  | .num n => toString n
  | .str s => "'" ++ s ++ "'"
  | .arr xs => "[" ++ String.intercalate ", " (xs.attach.map fun p => pyRepr p.1) ++ "]"
  | .obj kvs =>
      "\x7b" ++
        String.intercalate ", "
          (kvs.attach.map fun p => "'" ++ p.1.1 ++ "': " ++ pyRepr p.1.2) ++
      "\x7d"
decreasing_by
  · have := List.sizeOf_lt_of_mem p.2
    simp only [Json.arr.sizeOf_spec]
    omega
  · have h1 := List.sizeOf_lt_of_mem p.2
    have h2 : sizeOf p.1.2 < sizeOf p.1 := by
      obtain ⟨a, b⟩ := p.1
      simp
    simp only [Json.obj.sizeOf_spec]
    omega

/-- Python `str()` of a parsed-JSON value. -/
def pyStr (j : Json) : String :=
  match j with
  | .str s => s
  | _ => pyRepr j

/-- Python slicing `s[:n]` (by code point, as in Python). -/
def pySlice (s : String) (n : Nat) : String := String.mk (s.data.take n)

/-! ## OpenCode adapter (`backend/app/services/opencode_adapter.py`) -/

/-- `OpenCodeEventType` enum (opencode_adapter.py, lines 12-24). -/
inductive OpenCodeEventType where
  | SESSION_CREATED
  | SESSION_DELETED
  | SESSION_UPDATED
  | SESSION_STATUS
  | MESSAGE_UPDATED
  | MESSAGE_PART_UPDATED
  | MESSAGE_REMOVED
  | TOOL_EXECUTE_BEFORE
  | TOOL_EXECUTE_AFTER
  | PERMISSION_ASKED
  | PERMISSION_REPLIED
  | SERVER_CONNECTED
deriving DecidableEq

/-- `OpenCodeEventType(value)`: `none` models the `ValueError` raised on an
unrecognized value. -/
def OpenCodeEventType.ofString : String → Option OpenCodeEventType
  | "session.created" => some .SESSION_CREATED
  | "session.deleted" => some .SESSION_DELETED
  | "session.updated" => some .SESSION_UPDATED
  | "session.status" => some .SESSION_STATUS
  | "message.updated" => some .MESSAGE_UPDATED
  | "message.part.updated" => some .MESSAGE_PART_UPDATED
  | "message.removed" => some .MESSAGE_REMOVED
  | "tool.execute.before" => some .TOOL_EXECUTE_BEFORE
  | "tool.execute.after" => some .TOOL_EXECUTE_AFTER
  | "permission.asked" => some .PERMISSION_ASKED
  | "permission.replied" => some .PERMISSION_REPLIED
  | "server.connected" => some .SERVER_CONNECTED
  | _ => none

/-- One canonical event as built by `_transform_event`: the dict
`{"event_type": ..., "session_id": ..., "timestamp": ..., "data": ...}`. -/
structure CanonicalEvent where
  event_type : String
  session_id : Json
  timestamp : String
  data : List (String × Json)

/-- The adapter's mutable enrichment caches (`self.session_cache`,
`self.message_cache`). -/
structure AdapterState where
  session_cache : List (Json × Json)
  message_cache : List (Json × Json)

/-- The empty caches of a freshly constructed adapter. -/
def emptyState : AdapterState := ⟨[], []⟩

/-- `session_id = properties.get("session_id") or properties.get("id")`
(opencode_adapter.py, line 124). -/
def sessionIdOf (props : List (String × Json)) : Json :=
  pyOr (pyGet props "session_id") (pyGet props "id")

/-- `_extract_session_data` (opencode_adapter.py, lines 231-239). -/
def extractSessionData (props : List (String × Json)) :
    Except PyErr (List (String × Json)) :=
  let project := pyGetD props "project" (.obj [])
  match project.objGet "name" with
  | .error e => .error e
  | .ok name =>
    match project.objGet "root" with
    | .error e => .error e
    | .ok root =>
      .ok [("project_name", name),
           ("project_root", root),
           ("session_title", pyGetD props "title" (.str "Untitled")),
           ("native_agent_id", pyGet props "id"),
           ("agent_name", pyGetD props "title" (.str "Agent"))]

/-- The list comprehension
`[p.get("text") for p in parts if p.get("type") == "text"]` over an
already-materialized list of parts; a non-dict part raises at
`p.get("type")`. -/
def collectTextParts : List Json → Except PyErr (List Json)
  | [] => .ok []
  | p :: rest =>
    match p with
    | .obj kvs =>
      match collectTextParts rest with
      | .error e => .error e
      | .ok ts =>
        if pyEqStr (pyGet kvs "type") "text" then .ok (pyGet kvs "text" :: ts)
        else .ok ts
    | _ => .error .attributeError

/-- Iterating `parts` in the comprehension: lists iterate their elements; an
empty dict or empty string iterates to nothing; a non-empty dict iterates its
string keys and a non-empty string its characters, so the first `p.get` raises
`AttributeError`; other values are not iterable (`TypeError`). -/
def iterTextParts : Json → Except PyErr (List Json)
  | .arr ps => collectTextParts ps
  | .obj [] => .ok []
  | .obj (_ :: _) => .error .attributeError
  | .str "" => .ok []
  | .str _ => .error .attributeError
  | _ => .error .typeError

/-- Whether a value is a string. -/
def isStrB : Json → Bool
  | .str _ => true
  | _ => false

/-- The string payloads of a list of values, keeping only strings. -/
def strVals (xs : List Json) : List String :=
  xs.filterMap (fun j => match j with | .str s => some s | _ => none)

/-- `" ".join(xs)`: raises `TypeError` unless every element is a string. -/
def pyJoin (sep : String) (xs : List Json) : Except PyErr String :=
  if xs.all isStrB then .ok (String.intercalate sep (strVals xs))
  else .error .typeError

/-- `_transform_event` (opencode_adapter.py, lines 119-229).  The wall-clock
timestamp `datetime.now().isoformat()` is passed in as `now`.  The function
returns the adapter state as mutated up to the point of a raise together with
either the raised exception or the optional canonical event. -/
def transformEvent (st : AdapterState) (t : OpenCodeEventType)
    (props : List (String × Json)) (now : String) :
    AdapterState × Except PyErr (Option CanonicalEvent) :=
  let sid := sessionIdOf props
  if !sid.truthy then (st, .ok none)
  else
    match t with
    | .SESSION_CREATED =>
      match dictSet st.session_cache sid (.obj props) with
      | .error e => (st, .error e)
      | .ok sc =>
        let st' := { st with session_cache := sc }
        match extractSessionData props with
        | .error e => (st', .error e)
        | .ok data =>
          (st', .ok (some ⟨"session_start", sid, now, data⟩))
    | .SESSION_DELETED =>
      (st, .ok (some ⟨"session_end", sid, now, []⟩))
    | .SESSION_STATUS =>
      let status := pyGet props "status"
      if pyEqStr status "idle" then
        (st, .ok (some ⟨"stop", sid, now, []⟩))
      else if pyEqStr status "running" then
        (st, .ok (some ⟨"user_prompt_submit", sid, now,
          [("prompt", .str "Task started")]⟩))
      else (st, .ok none)
    | .MESSAGE_UPDATED =>
      let message := pyGetD props "message" (.obj [])
      match message.objGet "id" with
      | .error e => (st, .error e)
      | .ok mid =>
        match dictSet st.message_cache mid message with
        | .error e => (st, .error e)
        | .ok mc =>
          let st' := { st with message_cache := mc }
          match message.objGet "role" with
          | .error e => (st', .error e)
          | .ok role =>
            if pyEqStr role "user" then
              match message.objGetD "parts" (.arr []) with
              | .error e => (st', .error e)
              | .ok parts =>
                match iterTextParts parts with
                | .error e => (st', .error e)
                | .ok textParts =>
                  match pyJoin " " textParts with
                  | .error e => (st', .error e)
                  | .ok prompt =>
                    (st', .ok (some ⟨"user_prompt_submit", sid, now,
                      [("prompt", .str prompt)]⟩))
            else (st', .ok none)
    | .TOOL_EXECUTE_BEFORE =>
      let toolInput := pyGetD props "input" (.obj [])
      match toolInput.objGetD "tool" (.str "unknown") with
      | .error e => (st, .error e)
      | .ok toolName =>
        match toolInput.objGetD "args" (.obj []) with
        | .error e => (st, .error e)
        | .ok toolArgs =>
          let parentId := pyGet props "parent_id"
          match dictGet st.session_cache parentId with
          | .error e => (st, .error e)
          | .ok parentSession =>
            if parentSession.truthy || parentId.truthy then
              (st, .ok (some ⟨"pre_tool_use", sid, now,
                [("tool_name", toolName),
                 ("tool_input", toolArgs),
                 ("tool_use_id", pyGetD props "id" (.str ""))]⟩))
            else (st, .ok none)
    | .TOOL_EXECUTE_AFTER =>
      let toolInput := pyGetD props "input" (.obj [])
      match toolInput.objGetD "tool" (.str "unknown") with
      | .error e => (st, .error e)
      | .ok toolName =>
        let output := pyGetD props "output" (.obj [])
        match toolInput.objGetD "args" (.obj []) with
        | .error e => (st, .error e)
        | .ok toolArgs =>
          match output.objGetD "success" (.bool true) with
          | .error e => (st, .error e)
          | .ok success =>
            match output.objGet "error" with
            | .error e => (st, .error e)
            | .ok errType =>
              (st, .ok (some ⟨"post_tool_use", sid, now,
                [("tool_name", toolName),
                 ("tool_input", toolArgs),
                 ("success", success),
                 ("error_type", errType),
                 ("result_summary",
                   .str (if output.truthy then pySlice (pyStr output) 200
                         else ""))]⟩))
    | .PERMISSION_ASKED =>
      let permission := pyGetD props "permission" (.obj [])
      match permission.objGet "type" with
      | .error e => (st, .error e)
      | .ok ptype =>
        match permission.objGet "message" with
        | .error e => (st, .error e)
        | .ok msg =>
          (st, .ok (some ⟨"permission_request", sid, now,
            [("permission_type", ptype), ("message", msg)]⟩))
    | _ => (st, .ok none)

/-- `_send_to_backend` (opencode_adapter.py, lines 241-252): the HTTP POST may
fail (`httpFails`), but the whole body is wrapped in `try/except Exception`
which logs and absorbs the failure. -/
def sendToBackend (httpFails : Bool) : Except PyErr Unit :=
  match (if httpFails then (.error .httpError : Except PyErr Unit) else .ok ()) with
  | .error _ => .ok ()
  | .ok _ => .ok ()

/-- The body of `_process_event` before its `except` clauses
(opencode_adapter.py, lines 101-112).  `loadsResult` is the outcome of
`json.loads(event_data)` on the stream line (`.error .valueError` for
malformed JSON, since `json.JSONDecodeError` subclasses `ValueError`).
`event.get("type")`/`event.get("properties", {})` raise `AttributeError` when
the decoded value is not a dict; `OpenCodeEventType(event_type)` raises
`ValueError` on an unrecognized tag; `_transform_event` raises `AttributeError`
at its first `properties.get` when `properties` is not a dict. -/
def processEventCore (st : AdapterState) (loadsResult : Except PyErr Json)
    (now : String) (httpFails : Bool) :
    Except PyErr (AdapterState × Option CanonicalEvent) := do
  let event ← loadsResult
  let eventTypeTag ← event.objGet "type"
  let propsJ ← event.objGetD "properties" (.obj [])
  let t ← match eventTypeTag with
    | .str s =>
      match OpenCodeEventType.ofString s with
      | some t => pure t
      | none => throw .valueError
    | _ => throw .valueError
  let props ← match propsJ with
    | .obj kvs => pure kvs
    | _ => throw .attributeError
  match transformEvent st t props now with
  | (_, .error e) => throw e
  | (st', .ok none) => return (st', none)
  | (st', .ok (some ev)) => do
    let _ ← sendToBackend httpFails
    return (st', some ev)

/-- `_process_event` (opencode_adapter.py, lines 100-117): the body above
guarded by `except ValueError` / `except Exception`, both of which log and
continue; every modelled exception is a subclass of `Exception`, so the
handlers absorb it and the call completes normally. -/
def processEvent (st : AdapterState) (loadsResult : Except PyErr Json)
    (now : String) (httpFails : Bool) :
    Except PyErr (AdapterState × Option CanonicalEvent) :=
  match processEventCore st loadsResult now httpFails with
  | .ok r => .ok r
  | .error _ => .ok (st, none)

/-! ## Task persistence (`backend/app/core/task_persistence.py` against the
`TaskRecord` ORM model of `backend/app/db/models.py`) -/

/-- `TodoStatus` (backend/app/models/common.py, lines 31-37). -/
inductive TodoStatus where
  | pending
  | in_progress
  | completed
deriving DecidableEq

/-- The string value of a `TodoStatus` member. -/
def TodoStatus.val : TodoStatus → String
  | .pending => "pending"
  | .in_progress => "in_progress"
  | .completed => "completed"

/-- `TodoStatus(value)`: `none` models the `ValueError` raised on an
unrecognized value. -/
def TodoStatus.ofString : String → Option TodoStatus
  | "pending" => some .pending
  | "in_progress" => some .in_progress
  | "completed" => some .completed
  | _ => none

/-- `TodoItem` (backend/app/models/common.py, lines 39-50). -/
structure TodoItem where
  task_id : String := ""
  content : String
  status : TodoStatus
  active_form : Option String := none
  description : Option String := none
  blocks : List String := []
  blocked_by : List String := []
  owner : Option String := none
  metadata : Option (List (String × Json)) := none

/-- The mapped columns of the `TaskRecord` ORM class
(backend/app/db/models.py, lines 47-70).  Note: there are **no**
`description`, `blocks`, `blocked_by`, `owner` or `metadata_json` columns. -/
def taskRecordColumns : List String :=
  ["id", "session_id", "task_id", "content", "status", "active_form",
   "sort_order", "created_at", "updated_at"]

/-- One `TaskRecord` row, as a map from column name to stored value. -/
structure TaskRecordRow where
  attrs : List (String × Json)

/-- `TaskRecord(**kwargs)`: SQLAlchemy's declarative constructor raises
`TypeError` for any keyword argument that is not a mapped attribute of the
class. -/
def mkTaskRecord (kwargs : List (String × Json)) : Except PyErr TaskRecordRow :=
  if kwargs.all (fun kv => taskRecordColumns.contains kv.1) then
    .ok ⟨kwargs⟩
  else
    .error .typeError

/-- `record.<name>`: the stored value of a mapped column (`None` when unset),
`AttributeError` for a name that is not a mapped attribute. -/
def recordGetAttr (r : TaskRecordRow) (name : String) : Except PyErr Json :=
  if taskRecordColumns.contains name then
    .ok (pyGet r.attrs name)
  else
    .error .attributeError

/-- `_serialize_list` (task_persistence.py, lines 23-25):
`json.dumps(items) if items else None`.  The JSON text round-trip through
`json.dumps`/`json.loads` is modelled by storing the parsed value itself. -/
def serializeList (items : List String) : Json :=
  if items.isEmpty then .null else .arr (items.map Json.str)

/-- `_deserialize_list` (task_persistence.py, lines 28-38), modelling the
intended `except (json.JSONDecodeError, TypeError)` (the source spells this
with Python 2 syntax, on which see the results for the persistence claims):
falsy input or a non-list parse yields `[]`. -/
def deserializeList (data : Json) : List Json :=
  if !data.truthy then []
  else match data with
    | .arr xs => xs
    | _ => []

/-- `_serialize_metadata` (task_persistence.py, lines 41-43). -/
def serializeMetadata (metadata : Option (List (String × Json))) : Json :=
  match metadata with
  | none => .null
  | some kvs => if kvs.isEmpty then .null else .obj kvs

/-- `_deserialize_metadata` (task_persistence.py, lines 46-56). -/
def deserializeMetadata (data : Json) : Option (List (String × Json)) :=
  if !data.truthy then none
  else match data with
    | .obj kvs => some kvs
    | _ => none

/-- An `Option String` field value as stored in a nullable string column. -/
def optStrVal : Option String → Json
  | none => .null
  | some s => .str s

/-- The keyword arguments of the `TaskRecord(...)` call in `save_tasks`
(task_persistence.py, lines 75-87) for the todo at zero-based index `idx`. -/
def saveTaskKwargs (session_id : String) (idx : Nat) (todo : TodoItem) :
    List (String × Json) :=
  let task_id := if todo.task_id != "" then todo.task_id else toString (idx + 1)
  [("session_id", .str session_id),
   ("task_id", .str task_id),
   ("content", .str todo.content),
   ("status", .str todo.status.val),
   ("active_form", optStrVal todo.active_form),
   ("description", optStrVal todo.description),
   ("blocks", serializeList todo.blocks),
   ("blocked_by", serializeList todo.blocked_by),
   ("owner", optStrVal todo.owner),
   ("metadata_json", serializeMetadata todo.metadata),
   ("sort_order", .num idx)]

/-- The insertion loop of `save_tasks` (task_persistence.py, lines 71-88),
starting at index `idx`. -/
def saveTasksFrom (session_id : String) (idx : Nat) :
    List TodoItem → Except PyErr (List TaskRecordRow)
  | [] => .ok []
  | todo :: rest =>
    match mkTaskRecord (saveTaskKwargs session_id idx todo) with
    | .error e => .error e
    | .ok rec =>
      match saveTasksFrom session_id (idx + 1) rest with
      | .error e => .error e
      | .ok recs => .ok (rec :: recs)

/-- `save_tasks` (task_persistence.py, lines 59-91): deletes the session's
existing rows, then inserts one `TaskRecord` per todo; the result is the list
of rows committed for the session (the delete is implicit in returning a full
replacement list). -/
def save_tasks (session_id : String) (todos : List TodoItem) :
    Except PyErr (List TaskRecordRow) :=
  saveTasksFrom session_id 0 todos

/-- The `TodoStatus(record.status)` / `except ValueError` fallback of
`load_tasks` (task_persistence.py, lines 113-116). -/
def statusOfStored (j : Json) : TodoStatus :=
  match j with
  | .str s => (TodoStatus.ofString s).getD .pending
  | _ => .pending

/-- The per-record body of `load_tasks` (task_persistence.py, lines 112-130):
keyword arguments of the `TodoItem(...)` call are evaluated left to right, so
`record.description` is read before `record.blocks` etc. -/
def loadTaskOfRecord (r : TaskRecordRow) : Except PyErr TodoItem := do
  let taskId ← recordGetAttr r "task_id"
  let content ← recordGetAttr r "content"
  let statusRaw ← recordGetAttr r "status"
  let status := statusOfStored statusRaw
  let activeForm ← recordGetAttr r "active_form"
  let descr ← recordGetAttr r "description"
  let blocksRaw ← recordGetAttr r "blocks"
  let blockedByRaw ← recordGetAttr r "blocked_by"
  let ownerV ← recordGetAttr r "owner"
  let metaRaw ← recordGetAttr r "metadata_json"
  let asStr : Json → String := fun j => match j with | .str s => s | _ => ""
  let asOptStr : Json → Option String :=
    fun j => match j with | .str s => some s | _ => none
  return { task_id := asStr taskId,
           content := asStr content,
           status := status,
           active_form := asOptStr activeForm,
           description := asOptStr descr,
           blocks := (deserializeList blocksRaw).map asStr,
           blocked_by := (deserializeList blockedByRaw).map asStr,
           owner := asOptStr ownerV,
           metadata := deserializeMetadata metaRaw }

/-- `load_tasks` (task_persistence.py, lines 94-133), applied to the session's
stored rows already ordered by `sort_order` (the `SELECT ... ORDER BY` is the
database boundary). -/
def load_tasks : List TaskRecordRow → Except PyErr (List TodoItem)
  | [] => .ok []
  | r :: rest => do
    let todo ← loadTaskOfRecord r
    let todos ← load_tasks rest
    return todo :: todos

/-! ## Task file poller -/

/-- The candidate `text` entries of a message's parts, as the comprehension of
`_transform_event` selects them: the `text` value of every part whose `type`
is `"text"`. -/
def textsOf (ps : List Json) : List Json :=
  (ps.filter (fun p => pyEqStr (jsonGet p "type") "text")).map
    (fun p => jsonGet p "text")

/-- Modelled from the spec: `app/core/task_file_poller.py` (class
`TaskFilePoller`) is not under `src/` — only its tests import it.  Per spec
sections 4.4 and 6, one task file parses into a task as follows: the payload's
own `id` field takes precedence, the numeric-looking filename stem supplies
the default id; `subject` maps to `content` (required), `activeForm` to
`active_form`, `blockedBy` to `blocked_by`; an unrecognized or missing
`status` falls back to `pending`; `blocks`/`blockedBy` default to empty
lists; `description`, `owner` and `metadata` are optional. -/
def parseTaskFile (stem : String) (payload : Json) : Option TodoItem :=
  match payload with
  | .obj kvs =>
    let tid := match pyGet kvs "id" with | .str s => s | _ => stem
    match pyGet kvs "subject" with
    | .str subj =>
      some { task_id := tid,
             content := subj,
             status := statusOfStored (pyGet kvs "status"),
             active_form :=
               (match pyGet kvs "activeForm" with
                | .str s => some s | _ => none),
             description :=
               (match pyGet kvs "description" with
                | .str s => some s | _ => none),
             blocks := strVals (deserializeList (pyGet kvs "blocks")),
             blocked_by := strVals (deserializeList (pyGet kvs "blockedBy")),
             owner :=
               (match pyGet kvs "owner" with
                | .str s => some s | _ => none),
             metadata := deserializeMetadata (pyGet kvs "metadata") }
    | _ => none
  | _ => none

/-- The value of a decimal digit character, by its code point. -/
def digitVal (c : Char) : Option Nat :=
  if 48 ≤ c.toNat && c.toNat ≤ 57 then some (c.toNat - 48) else none

/-- The value of a non-empty run of decimal digits, accumulated left to
right. -/
def digitsVal (acc : Nat) : List Char → Option Nat
  | [] => some acc
  | c :: cs =>
    match digitVal c with
    | some d => digitsVal (acc * 10 + d) cs
    | none => none

/-- Modelled from the spec: the numeric value of a task id used as the sort
key (`int(task_id)`); ids in the spec's examples are decimal numerals, and a
non-numeric id contributes 0. -/
def taskIdNum (s : String) : Int :=
  match s.data with
  | [] => 0
  | l => match digitsVal 0 l with | some n => (n : Int) | none => 0

/-- Stable insertion of a task into a list sorted by numeric id. -/
def insertByNumericId (t : TodoItem) : List TodoItem → List TodoItem
  | [] => [t]
  | u :: us =>
    if taskIdNum t.task_id < taskIdNum u.task_id then t :: u :: us
    else u :: insertByNumericId t us

/-- Modelled from the spec: sort tasks by the numeric value of their id (not
lexicographically). -/
def sortByNumericId : List TodoItem → List TodoItem
  | [] => []
  | t :: ts => insertByNumericId t (sortByNumericId ts)

/-- Modelled from the spec: one poll tick over the session's task directory,
given the directory listing as `(filename stem, parsed JSON payload)` pairs.
Malformed files are skipped; the resulting snapshot is ordered by numeric task
id. -/
def pollSnapshot (files : List (String × Json)) : List TodoItem :=
  sortByNumericId (files.filterMap (fun f => parseTaskFile f.1 f.2))

/-! ## Supporting lemmas -/

theorem pyEqStr_of_eq (s : String) : pyEqStr (.str s) s = true := by
  simp [pyEqStr]

theorem pyEqStr_eq_false_of_ne {j : Json} {s : String} (h : j ≠ .str s) :
    pyEqStr j s = false := by
  cases j <;> simp_all [pyEqStr]

theorem Json.isObj_iff {j : Json} :
    j.isObj = true ↔ ∃ kvs, j = .obj kvs := by
  cases j <;> simp [Json.isObj]

theorem dictSet_of_hashable {d : List (Json × Json)} {k v : Json}
    (h : k.hashable = true) : dictSet d k v = .ok (dictSetT d k v) := by
  simp [dictSet, dictSetT, h]

theorem dictGet_of_hashable {d : List (Json × Json)} {k : Json}
    (h : k.hashable = true) : dictGet d k = .ok (dictFind d k) := by
  simp [dictGet, dictFind, h]

theorem pyGetD_of_no_key {kvs : List (String × Json)} {k : String} {d : Json}
    (h : kvs.any (fun kv => kv.1 == k) = false) : pyGetD kvs k d = d := by
  have : kvs.find? (fun kv => kv.1 == k) = none := by
    rw [List.find?_eq_none]
    intro x hx
    have := List.any_eq_false.mp h x hx
    simpa using this
  simp [pyGetD, this]

theorem collectTextParts_of_objs {ps : List Json}
    (h : ps.all Json.isObj = true) :
    collectTextParts ps = .ok (textsOf ps) := by
  induction ps with
  | nil => simp [collectTextParts, textsOf]
  | cons p rest ih =>
    rw [List.all_cons, Bool.and_eq_true] at h
    obtain ⟨kvs, rfl⟩ := Json.isObj_iff.mp h.1
    rw [collectTextParts, ih h.2]
    by_cases hty : pyEqStr (pyGet kvs "type") "text"
    · simp [textsOf, hty, jsonGet, List.filter_cons]
    · rw [Bool.not_eq_true] at hty
      simp [textsOf, hty, jsonGet, List.filter_cons]

theorem pyJoin_of_strs {xs : List Json} (h : xs.all isStrB = true) :
    pyJoin " " xs = .ok (String.intercalate " " (strVals xs)) := by
  simp [pyJoin, h]

theorem pySlice_length_le (s : String) (n : Nat) :
    (pySlice s n).length ≤ n := by
  show (s.data.take n).length ≤ n
  simp [List.length_take]

/-! ## Claim theorems -/

/-- C7: for every outcome of `json.loads` on a stream line (including
malformed JSON), every vendor event type tag (including unrecognized ones),
every transformation outcome (including raised exceptions) and every outcome
of the forward call, `_process_event` completes normally: no exception
propagates to the stream-reading loop. -/
theorem processEvent_never_raises (st : AdapterState)
    (loadsResult : Except PyErr Json) (now : String) (httpFails : Bool) :
    ∃ r, processEvent st loadsResult now httpFails = .ok r := by
  unfold processEvent
  cases h : processEventCore st loadsResult now httpFails with
  | ok r => exact ⟨r, rfl⟩
  | error e => exact ⟨(st, none), rfl⟩

/-- C2 (counterexample): a `session.status` event whose properties resolve a
session id (`"id": "s1"`) but carry an unhandled status value produces no
canonical event, so "returns no canonical event if and only if no session id
is resolvable" is false in the only-if direction. -/
theorem transform_none_despite_session_id :
    (sessionIdOf [("id", Json.str "s1"), ("status", Json.str "busy")]).truthy
      = true ∧
    transformEvent emptyState .SESSION_STATUS
      [("id", Json.str "s1"), ("status", Json.str "busy")] "t0" =
      (emptyState, .ok none) :=
  ⟨rfl, rfl⟩

/-- C2 (amended): whenever no session id is resolvable from the properties
(key `session_id`, with fallback to key `id`), the transformer returns no
canonical event and leaves the caches untouched; and every canonical event the
transformer does emit carries the resolved session id. -/
theorem transform_session_id_contract :
    (∀ (st : AdapterState) (t : OpenCodeEventType)
       (props : List (String × Json)) (now : String),
       (sessionIdOf props).truthy = false →
       transformEvent st t props now = (st, .ok none)) ∧
    (∀ (st st' : AdapterState) (t : OpenCodeEventType)
       (props : List (String × Json)) (now : String) (e : CanonicalEvent),
       transformEvent st t props now = (st', .ok (some e)) →
       e.session_id = sessionIdOf props) := by
  constructor
  · intro st t props now h
    unfold transformEvent
    simp [h]
  · intro st st' t props now e h
    unfold transformEvent at h
    cases hs : (sessionIdOf props).truthy with
    | false => simp [hs] at h
    | true =>
      simp only [hs, Bool.not_true, Bool.false_eq_true, if_false] at h
      cases t <;>
        · repeat' split at h
          all_goals try simp_all
          all_goals (obtain ⟨h1, h2⟩ := h; subst h2; rfl)

/-- C2 (witness for the amended claim): both parts applied at concrete
inputs — properties with no resolvable session id yield no event, and the
event emitted for a concrete `session.deleted` carries the resolved id. -/
theorem transform_session_id_contract_witness :
    transformEvent emptyState .SESSION_STATUS [("status", Json.str "idle")]
      "t0" = (emptyState, .ok none) ∧
    (⟨"session_end", Json.str "s1", "t0", []⟩ : CanonicalEvent).session_id =
      sessionIdOf [("id", Json.str "s1")] :=
  ⟨transform_session_id_contract.1 emptyState .SESSION_STATUS
      [("status", Json.str "idle")] "t0" rfl,
   transform_session_id_contract.2 emptyState emptyState .SESSION_DELETED
      [("id", Json.str "s1")] "t0" _ rfl⟩

/-- C5: for a `session.status` event with a resolvable session id, status
`"idle"` emits exactly one `stop` event, status `"running"` emits exactly one
`user_prompt_submit` event with the placeholder prompt `"Task started"`, and
any other status value emits no event. -/
theorem session_status_dispatch (st : AdapterState)
    (props : List (String × Json)) (now : String)
    (hsid : (sessionIdOf props).truthy = true) :
    (pyGet props "status" = .str "idle" →
      transformEvent st .SESSION_STATUS props now =
        (st, .ok (some ⟨"stop", sessionIdOf props, now, []⟩))) ∧
    (pyGet props "status" = .str "running" →
      transformEvent st .SESSION_STATUS props now =
        (st, .ok (some ⟨"user_prompt_submit", sessionIdOf props, now,
          [("prompt", .str "Task started")]⟩))) ∧
    (pyGet props "status" ≠ .str "idle" →
     pyGet props "status" ≠ .str "running" →
      transformEvent st .SESSION_STATUS props now = (st, .ok none)) := by
  refine ⟨?_, ?_, ?_⟩
  · intro h
    simp [transformEvent, hsid, h, pyEqStr]
  · intro h
    simp [transformEvent, hsid, h, pyEqStr]
  · intro h1 h2
    simp [transformEvent, hsid, pyEqStr_eq_false_of_ne h1,
      pyEqStr_eq_false_of_ne h2]

/-- C5 (witness): the three branches evaluated at concrete inputs. -/
theorem session_status_dispatch_witness :
    transformEvent emptyState .SESSION_STATUS
      [("id", Json.str "s1"), ("status", Json.str "idle")] "t0" =
      (emptyState, .ok (some ⟨"stop", .str "s1", "t0", []⟩)) ∧
    transformEvent emptyState .SESSION_STATUS
      [("id", Json.str "s1"), ("status", Json.str "running")] "t0" =
      (emptyState, .ok (some ⟨"user_prompt_submit", .str "s1", "t0",
        [("prompt", .str "Task started")]⟩)) ∧
    transformEvent emptyState .SESSION_STATUS
      [("id", Json.str "s1"), ("status", Json.str "busy")] "t0" =
      (emptyState, .ok none) :=
  ⟨(session_status_dispatch emptyState
      [("id", Json.str "s1"), ("status", Json.str "idle")] "t0" rfl).1 rfl,
   (session_status_dispatch emptyState
      [("id", Json.str "s1"), ("status", Json.str "running")] "t0" rfl).2.1 rfl,
   (session_status_dispatch emptyState
      [("id", Json.str "s1"), ("status", Json.str "busy")] "t0" rfl).2.2
      (by intro hh; simp [pyGet] at hh) (by intro hh; simp [pyGet] at hh)⟩

/-- C1: `save_tasks` cannot round-trip any non-empty todo list, because the
`TaskRecord(...)` call passes the keyword arguments `description`, `blocks`,
`blocked_by`, `owner` and `metadata_json`, none of which is a mapped column of
`TaskRecord` (db/models.py lines 47-70), so SQLAlchemy's declarative
constructor raises `TypeError` before anything is stored; the module moreover
fails to import under Python 3, since task_persistence.py lines 37 and 55
spell `except json.JSONDecodeError, TypeError:` with Python 2 syntax. -/
theorem save_tasks_raises_type_error :
    save_tasks "s1"
      [{ task_id := "1", content := "First task", status := .pending }] =
      .error .typeError := rfl

/-- C8: `load_tasks` never reaches its `TodoStatus`/`except ValueError`
fallback on a stored record with an unrecognized status: the `TodoItem(...)`
call reads `record.description` (and later `record.blocks`, `record.blocked_by`,
`record.owner`, `record.metadata_json`), which are not mapped attributes of
`TaskRecord`, so it raises `AttributeError` instead of returning the task with
status `pending`. -/
theorem load_tasks_raises_attribute_error :
    load_tasks
      [⟨[("session_id", .str "s5"), ("task_id", .str "1"),
         ("content", .str "Invalid status task"),
         ("status", .str "invalid_status"), ("sort_order", .num 0)]⟩] =
      .error .attributeError := rfl

/-- C10: the `TaskRecord(...)` call of `save_tasks` computes `sort_order=idx`
and the index-defaulted `task_id`, but the constructor raises `TypeError`
(unknown keyword arguments, see C1), so nothing is stored for any non-empty
todo list — here at the input of the repository's own
`test_task_id_from_todo_preserved`. -/
theorem save_tasks_stores_nothing :
    save_tasks "test-session-task-id"
      [{ task_id := "custom-id-abc", content := "Task A", status := .pending },
       { task_id := "custom-id-xyz", content := "Task B", status := .pending }] =
      .error .typeError := rfl

/-- C9: the poll snapshot is ordered by the numeric value of the task id: the
files `3.json,1.json,2.json` with subjects `Third,First,Second` come back as
`First,Second,Third`, and ids `"1"`..`"10"` place `"10"` after `"2"` (last),
not lexicographically. -/
theorem poll_snapshot_numeric_order :
    (pollSnapshot
      [("3", .obj [("id", .str "3"), ("subject", .str "Third"),
                   ("status", .str "pending")]),
       ("1", .obj [("id", .str "1"), ("subject", .str "First"),
                   ("status", .str "pending")]),
       ("2", .obj [("id", .str "2"), ("subject", .str "Second"),
                   ("status", .str "pending")])]).map TodoItem.content =
      ["First", "Second", "Third"] ∧
    (pollSnapshot
      (["10", "2", "1", "4", "3", "6", "5", "8", "7", "9"].map
        (fun i => (i, Json.obj [("id", .str i), ("subject", .str i),
                                ("status", .str "pending")])))).map
        TodoItem.task_id =
      ["1", "2", "3", "4", "5", "6", "7", "8", "9", "10"] := by
  constructor <;> rfl

/-- C3: for a `tool.execute.before` event with a resolvable session id (and a
well-typed `input` payload and hashable `parent_id`), the transformer emits a
`pre_tool_use` event carrying the tool name, the tool arguments and the
tool-invocation id exactly when the session cache resolves the `parent_id` to
a (truthy) entry or a (truthy) `parent_id` is present in the properties;
otherwise it emits nothing. -/
theorem tool_execute_before_gating (st : AdapterState)
    (props : List (String × Json)) (now : String)
    (hsid : (sessionIdOf props).truthy = true)
    (hinput : (pyGetD props "input" (.obj [])).isObj = true)
    (hparent : (pyGet props "parent_id").hashable = true) :
    transformEvent st .TOOL_EXECUTE_BEFORE props now =
      (st, .ok
        (if (dictFind st.session_cache (pyGet props "parent_id")).truthy
            || (pyGet props "parent_id").truthy then
          some ⟨"pre_tool_use", sessionIdOf props, now,
            [("tool_name",
               jsonGetD (pyGetD props "input" (.obj [])) "tool" (.str "unknown")),
             ("tool_input",
               jsonGetD (pyGetD props "input" (.obj [])) "args" (.obj [])),
             ("tool_use_id", pyGetD props "id" (.str ""))]⟩
         else none)) := by
  obtain ⟨kvs, hk⟩ := Json.isObj_iff.mp hinput
  simp only [transformEvent, hsid, Bool.not_true, Bool.false_eq_true, if_false]
  rw [hk]
  simp only [Json.objGetD, dictGet_of_hashable hparent, jsonGetD]
  split <;> simp_all

/-- C3 (witness): a concrete `tool.execute.before` with a present `parent_id`
emits a `pre_tool_use` event with the tool name, arguments and invocation
id. -/
theorem tool_execute_before_gating_witness :
    transformEvent emptyState .TOOL_EXECUTE_BEFORE
      [("session_id", Json.str "s1"), ("id", Json.str "tool-123"),
       ("parent_id", Json.str "s1"),
       ("input", Json.obj [("tool", Json.str "bash"),
                           ("args", Json.obj [("command", Json.str "ls")])])]
      "t0" =
      (emptyState, .ok (some ⟨"pre_tool_use", .str "s1", "t0",
        [("tool_name", .str "bash"),
         ("tool_input", .obj [("command", Json.str "ls")]),
         ("tool_use_id", .str "tool-123")]⟩)) :=
  (tool_execute_before_gating emptyState
    [("session_id", Json.str "s1"), ("id", Json.str "tool-123"),
     ("parent_id", Json.str "s1"),
     ("input", Json.obj [("tool", Json.str "bash"),
                         ("args", Json.obj [("command", Json.str "ls")])])]
    "t0" rfl rfl rfl).trans rfl

/-- C4: for a `message.updated` event with a resolvable session id and a
well-formed message, a message with role `"user"` makes the transformer emit
exactly one `user_prompt_submit` event whose prompt is the single-space
concatenation of the `text` of all parts with type `"text"`, while any other
role emits no event (the message is cached in both cases). -/
theorem message_updated_dispatch (st : AdapterState)
    (props : List (String × Json)) (now : String)
    (hsid : (sessionIdOf props).truthy = true)
    (hmsg : (pyGetD props "message" (.obj [])).isObj = true)
    (hkey : (jsonGet (pyGetD props "message" (.obj [])) "id").hashable = true) :
    (∀ ps : List Json,
       jsonGetD (pyGetD props "message" (.obj [])) "parts" (.arr []) = .arr ps →
       ps.all Json.isObj = true →
       (textsOf ps).all isStrB = true →
       jsonGet (pyGetD props "message" (.obj [])) "role" = .str "user" →
       transformEvent st .MESSAGE_UPDATED props now =
         (⟨st.session_cache,
           dictSetT st.message_cache
             (jsonGet (pyGetD props "message" (.obj [])) "id")
             (pyGetD props "message" (.obj []))⟩,
          .ok (some ⟨"user_prompt_submit", sessionIdOf props, now,
            [("prompt",
              .str (String.intercalate " " (strVals (textsOf ps))))]⟩))) ∧
    (jsonGet (pyGetD props "message" (.obj [])) "role" ≠ .str "user" →
       transformEvent st .MESSAGE_UPDATED props now =
         (⟨st.session_cache,
           dictSetT st.message_cache
             (jsonGet (pyGetD props "message" (.obj [])) "id")
             (pyGetD props "message" (.obj []))⟩,
          .ok none)) := by
  obtain ⟨kvs, hk⟩ := Json.isObj_iff.mp hmsg
  rw [hk] at hkey ⊢
  constructor
  · intro ps hparts hobjs htexts hrole
    simp only [jsonGet] at hkey hrole
    simp only [jsonGetD] at hparts
    simp only [transformEvent, hsid, Bool.not_true, Bool.false_eq_true,
      if_false]
    rw [hk]
    simp only [Json.objGet, Json.objGetD, dictSet_of_hashable hkey]
    rw [hrole]
    simp only [pyEqStr_of_eq, if_true, hparts]
    rw [show iterTextParts (.arr ps) = collectTextParts ps from rfl,
      collectTextParts_of_objs hobjs]
    simp [pyJoin_of_strs htexts, jsonGet]
  · intro hrole
    simp only [jsonGet] at hkey hrole
    simp only [transformEvent, hsid, Bool.not_true, Bool.false_eq_true,
      if_false]
    rw [hk]
    simp only [Json.objGet, Json.objGetD, dictSet_of_hashable hkey,
      pyEqStr_eq_false_of_ne hrole, Bool.false_eq_true, if_false]
    simp [jsonGet]

/-- C4 (witness): the spec's example — parts `"a"`, `"b"` of a user message
give prompt `"a b"`; an assistant message emits nothing. -/
theorem message_updated_dispatch_witness :
    transformEvent emptyState .MESSAGE_UPDATED
      [("session_id", Json.str "s1"),
       ("message", Json.obj
         [("id", Json.str "m1"), ("role", Json.str "user"),
          ("parts", Json.arr
            [Json.obj [("type", Json.str "text"), ("text", Json.str "a")],
             Json.obj [("type", Json.str "text"), ("text", Json.str "b")]])])]
      "t0" =
      (⟨[], [(Json.str "m1", Json.obj
          [("id", Json.str "m1"), ("role", Json.str "user"),
           ("parts", Json.arr
             [Json.obj [("type", Json.str "text"), ("text", Json.str "a")],
              Json.obj [("type", Json.str "text"), ("text", Json.str "b")]])])]⟩,
       .ok (some ⟨"user_prompt_submit", .str "s1", "t0",
         [("prompt", .str "a b")]⟩)) ∧
    transformEvent emptyState .MESSAGE_UPDATED
      [("session_id", Json.str "s1"),
       ("message", Json.obj
         [("id", Json.str "m2"), ("role", Json.str "assistant")])] "t0" =
      (⟨[], [(Json.str "m2", Json.obj
          [("id", Json.str "m2"), ("role", Json.str "assistant")])]⟩,
       .ok none) :=
  ⟨((message_updated_dispatch emptyState
      [("session_id", Json.str "s1"),
       ("message", Json.obj
         [("id", Json.str "m1"), ("role", Json.str "user"),
          ("parts", Json.arr
            [Json.obj [("type", Json.str "text"), ("text", Json.str "a")],
             Json.obj [("type", Json.str "text"), ("text", Json.str "b")]])])]
      "t0" rfl rfl rfl).1
      [Json.obj [("type", Json.str "text"), ("text", Json.str "a")],
       Json.obj [("type", Json.str "text"), ("text", Json.str "b")]]
      rfl rfl rfl rfl).trans rfl,
   ((message_updated_dispatch emptyState
      [("session_id", Json.str "s1"),
       ("message", Json.obj
         [("id", Json.str "m2"), ("role", Json.str "assistant")])]
      "t0" rfl rfl rfl).2
      (by intro hh; simp [jsonGet, pyGetD, pyGet] at hh)).trans rfl⟩

/-- C6: for a `tool.execute.after` event with a resolvable session id (and
well-typed `input`/`output` payloads), the transformer emits a `post_tool_use`
event unconditionally; its data carries the tool name, the tool arguments, a
success flag defaulting to `True` when the output has no `success` field, the
optional `error` value, and a `result_summary` string of length at most 200
characters (`str(output)[:200]`, or `""` for a falsy output). -/
theorem tool_execute_after_unconditional (st : AdapterState)
    (props : List (String × Json)) (now : String)
    (hsid : (sessionIdOf props).truthy = true)
    (hinput : (pyGetD props "input" (.obj [])).isObj = true)
    (houtput : (pyGetD props "output" (.obj [])).isObj = true) :
    transformEvent st .TOOL_EXECUTE_AFTER props now =
      (st, .ok (some ⟨"post_tool_use", sessionIdOf props, now,
        [("tool_name",
           jsonGetD (pyGetD props "input" (.obj [])) "tool" (.str "unknown")),
         ("tool_input",
           jsonGetD (pyGetD props "input" (.obj [])) "args" (.obj [])),
         ("success",
           jsonGetD (pyGetD props "output" (.obj [])) "success" (.bool true)),
         ("error_type", jsonGet (pyGetD props "output" (.obj [])) "error"),
         ("result_summary",
           .str (if (pyGetD props "output" (.obj [])).truthy then
                   pySlice (pyStr (pyGetD props "output" (.obj []))) 200
                 else ""))]⟩)) ∧
    (jsonHasKey (pyGetD props "output" (.obj [])) "success" = false →
      jsonGetD (pyGetD props "output" (.obj [])) "success" (.bool true) =
        .bool true) ∧
    (if (pyGetD props "output" (.obj [])).truthy then
       pySlice (pyStr (pyGetD props "output" (.obj []))) 200
     else "").length ≤ 200 := by
  obtain ⟨ikvs, hik⟩ := Json.isObj_iff.mp hinput
  obtain ⟨okvs, hok⟩ := Json.isObj_iff.mp houtput
  refine ⟨?_, ?_, ?_⟩
  · simp only [transformEvent, hsid, Bool.not_true, Bool.false_eq_true,
      if_false]
    rw [hik, hok]
    simp [Json.objGet, Json.objGetD, jsonGet, jsonGetD]
  · intro hno
    rw [hok] at hno ⊢
    simp only [jsonHasKey] at hno
    simp only [jsonGetD]
    exact pyGetD_of_no_key hno
  · split
    · exact pySlice_length_le _ 200
    · simp

/-- C6 (witness): a concrete `tool.execute.after` whose output lacks a
`success` field emits a `post_tool_use` event with `success` defaulting to
`True`, the `error` value, and the truncated summary. -/
theorem tool_execute_after_unconditional_witness :
    transformEvent emptyState .TOOL_EXECUTE_AFTER
      [("session_id", Json.str "s1"),
       ("input", Json.obj [("tool", Json.str "bash"),
                           ("args", Json.obj [("command", Json.str "ls")])]),
       ("output", Json.obj [("error", Json.null),
                            ("result", Json.str "ok")])] "t0" =
      (emptyState, .ok (some ⟨"post_tool_use", .str "s1", "t0",
        [("tool_name", .str "bash"),
         ("tool_input", .obj [("command", Json.str "ls")]),
         ("success", .bool true),
         ("error_type", .null),
         ("result_summary",
           .str (pySlice (pyStr (Json.obj [("error", Json.null),
             ("result", Json.str "ok")])) 200))]⟩)) ∧
    (pySlice (pyStr (Json.obj [("error", Json.null),
       ("result", Json.str "ok")])) 200).length ≤ 200 := by
  have h := tool_execute_after_unconditional emptyState
    [("session_id", Json.str "s1"),
     ("input", Json.obj [("tool", Json.str "bash"),
                         ("args", Json.obj [("command", Json.str "ls")])]),
     ("output", Json.obj [("error", Json.null),
                          ("result", Json.str "ok")])] "t0" rfl rfl rfl
  refine ⟨h.1.trans (by rw [h.2.1 rfl]; rfl), ?_⟩
  have h3 := h.2.2
  simpa using h3
